import Mathlib

/-!
# Verification of the smart-classroom-simulation core

Shallow embedding of the core logic of the repository:

* `classroom_model.py` — `ClassroomEnvironment.update`, the discrete-time
  environment model.  Python floats are modelled as `ℚ`; the three
  `np.random.normal` draws of one update call are passed in explicitly as
  `eps_co2`, `eps_temp`, `eps_noise` (the spec guarantees the update is
  deterministic given a fixed random source).
* `config.py` — `SIMULATION_CONFIG` as a flat record.
* `ml_model.py` — `LearningEnvironmentClassifier.predict`.  The trained
  RandomForest itself is external to the core (spec §1/§6), so a trained
  model is abstracted as a function from a snapshot to (label, confidence);
  `predict` with no model errors exactly as the Python `raise ValueError`.
* `simulation.py` — `SmartClassroomSimulation`: constructor, the per-tick
  bodies of `update_environment` (run by `school_day_schedule`), `ml_monitoring`
  and `data_logging`, and `trigger_interventions`.
-/

/-- Configuration record, `config.py` `SIMULATION_CONFIG` flattened
(thresholds inlined). -/
structure Config where
  simulation_duration : ℕ
  time_step : ℕ
  room_capacity : ℚ
  room_volume : ℚ
  co2_max : ℚ
  temp_min : ℚ
  temp_max : ℚ
  noise_max : ℚ
  light_min : ℚ
  co2_per_person : ℚ
  heat_per_person : ℚ

/-- The literal values of `SIMULATION_CONFIG` in `config.py`
(`co2_per_person = 0.004 = 1/250`). -/
def SIMULATION_CONFIG : Config :=
  { simulation_duration := 480
    time_step := 1
    room_capacity := 30
    room_volume := 200
    co2_max := 1000
    temp_min := 20
    temp_max := 26
    noise_max := 65
    light_min := 300
    co2_per_person := 1/250
    heat_per_person := 100 }

/-- The mutable state of `ClassroomEnvironment` (`classroom_model.py`). -/
structure ClassroomEnvironment where
  co2 : ℚ
  temperature : ℚ
  humidity : ℚ
  noise : ℚ
  light : ℚ
  occupancy : ℚ
  student_count : ℤ
deriving DecidableEq

/-- Initial conditions set in `ClassroomEnvironment.__init__`. -/
def ClassroomEnvironment.init : ClassroomEnvironment :=
  { co2 := 400, temperature := 22, humidity := 50, noise := 40,
    light := 500, occupancy := 0, student_count := 0 }

/-- The snapshot dictionary returned by `ClassroomEnvironment.update`. -/
structure EnvSnapshot where
  co2 : ℚ
  temperature : ℚ
  humidity : ℚ
  noise : ℚ
  light : ℚ
  occupancy : ℚ
deriving DecidableEq

/-- `air_change_rate = 0.5 if fan_on else 0.1` (`classroom_model.py`). -/
def airChangeRate (fan_on : Bool) : ℚ :=
  if fan_on then 1/2 else 1/10

/-- The first-order CO₂ decay term subtracted in `update`:
`air_change_rate * (co2 - 400) * time_step / 60`, where `co2` is the value
after the production term has been added. -/
def co2DecayTerm (fan_on : Bool) (co2 time_step : ℚ) : ℚ :=
  airChangeRate fan_on * (co2 - 400) * time_step / 60

/-- `ClassroomEnvironment.update` (`classroom_model.py`): mutates the stored
state and returns a snapshot dictionary whose `co2` is clamped to ≥ 400 and
whose `noise` is clamped to ≥ 30.  Returns (new stored state, snapshot).
Python literals: `1.2 = 6/5`, `0.8 = 4/5`. -/
def ClassroomEnvironment.update (s : ClassroomEnvironment) (cfg : Config)
    (time_step : ℚ) (student_count : ℤ) (fan_on ac_on : Bool)
    (eps_co2 eps_temp eps_noise : ℚ) :
    ClassroomEnvironment × EnvSnapshot :=
  let occupancy : ℚ := (student_count : ℚ) / cfg.room_capacity
  let co2_production : ℚ := (student_count : ℚ) * cfg.co2_per_person * time_step
  let co2a : ℚ := s.co2 + co2_production
  let co2b : ℚ := co2a - co2DecayTerm fan_on co2a time_step
  let heat_gain : ℚ :=
    (student_count : ℚ) * cfg.heat_per_person * time_step / 3600
      - (if ac_on then 2000 * time_step / 3600 else 0)
  let temp1 : ℚ := s.temperature + heat_gain / (cfg.room_volume * (6/5))
  let co2c : ℚ := co2b + eps_co2
  let temp2 : ℚ := temp1 + eps_temp
  let noise1 : ℚ := 40 + (student_count : ℚ) * (4/5) + eps_noise
  let s2 : ClassroomEnvironment :=
    { co2 := co2c, temperature := temp2, humidity := s.humidity,
      noise := noise1, light := s.light, occupancy := occupancy,
      student_count := student_count }
  (s2,
   { co2 := max 400 co2c, temperature := temp2, humidity := s.humidity,
     noise := max 30 noise1, light := s.light, occupancy := occupancy })

/-- `ClassroomEnvironment.update` with the Python division-by-zero behaviour
made explicit: `student_count / room_capacity` raises `ZeroDivisionError`
when `room_capacity = 0`, and `heat_gain / (room_volume * 1.2)` raises when
`room_volume = 0`; every other input flows through with no validation. -/
def ClassroomEnvironment.updateChecked (s : ClassroomEnvironment) (cfg : Config)
    (time_step : ℚ) (student_count : ℤ) (fan_on ac_on : Bool)
    (eps_co2 eps_temp eps_noise : ℚ) :
    Except String (ClassroomEnvironment × EnvSnapshot) :=
  if cfg.room_capacity = 0 then .error "ZeroDivisionError"
  else if cfg.room_volume = 0 then .error "ZeroDivisionError"
  else .ok (s.update cfg time_step student_count fan_on ac_on
              eps_co2 eps_temp eps_noise)

/-- The dictionary returned by `LearningEnvironmentClassifier.predict`
(`ml_model.py`): the verdict and the max class probability.  (The returned
`thresholds` dict is unused by the control loop and omitted.) -/
structure Prediction where
  conducive : Bool
  confidence : ℚ

/-- A trained RandomForest model.  Training is external to the core
(spec §1/§6), so a trained model is abstracted as a pure function from the
predicted-on snapshot to (verdict, max probability). -/
def TrainedModel : Type := EnvSnapshot → Bool × ℚ

/-- `LearningEnvironmentClassifier.predict` (`ml_model.py`): with
`self.model is None` it raises
`ValueError("Model not trained. Call train_from_csv first.")`; otherwise it
returns the verdict and confidence of the model on the snapshot. -/
def LearningEnvironmentClassifier.predict (model : Option TrainedModel)
    (env_data : EnvSnapshot) : Except String Prediction :=
  match model with
  | none => .error "Model not trained. Call train_from_csv first."
  | some m => .ok { conducive := (m env_data).1, confidence := (m env_data).2 }

/-- The intervention dictionary built by
`SmartClassroomSimulation.trigger_interventions`; `action` is `none`
(Python `None`) when no rule fired. -/
structure InterventionRecord where
  time : ℕ
  co2 : ℚ
  temperature : ℚ
  action : Option String
deriving DecidableEq

/-- One entry of `self.log` built by `data_logging` (`simulation.py`). -/
structure LogEntry where
  timestamp : ℕ
  student_count : ℤ
  co2 : ℚ
  temperature : ℚ
  humidity : ℚ
  noise : ℚ
  light : ℚ
  occupancy : ℚ
  fan_on : Bool
  ac_on : Bool

/-- The mutable state of `SmartClassroomSimulation` (`simulation.py`):
classroom model, loaded classifier model, intervention history, run log and
actuator flags.  The constructor clause `try: load_model except: print(...)`
means `model` holds whatever the load produced — `none` when loading
failed — and construction itself never fails. -/
structure SmartClassroomSimulation where
  classroom : ClassroomEnvironment
  model : Option TrainedModel
  interventions : List InterventionRecord
  log : List LogEntry
  fan_on : Bool
  ac_on : Bool
  lights_on : Bool

/-- `SmartClassroomSimulation.__init__`: always succeeds, storing the load
result (possibly `none`) and the initial actuator flags. -/
def SmartClassroomSimulation.init (load : Option TrainedModel) :
    SmartClassroomSimulation :=
  { classroom := ClassroomEnvironment.init
    model := load
    interventions := []
    log := []
    fan_on := false
    ac_on := false
    lights_on := true }

/-- `SmartClassroomSimulation.trigger_interventions` (`simulation.py`):
first matching rule in the if/elif chain fires; the record is appended in
every case, with `action = none` when no rule matched. -/
def SmartClassroomSimulation.trigger_interventions
    (s : SmartClassroomSimulation) (cfg : Config) (now : ℕ)
    (env_data : EnvSnapshot) : SmartClassroomSimulation :=
  if env_data.co2 > cfg.co2_max then
    { s with
      fan_on := true
      interventions := s.interventions ++
        [{ time := now, co2 := env_data.co2,
           temperature := env_data.temperature,
           action := some "activate_ventilation" }] }
  else if env_data.temperature > cfg.temp_max then
    { s with
      ac_on := true
      interventions := s.interventions ++
        [{ time := now, co2 := env_data.co2,
           temperature := env_data.temperature,
           action := some "activate_ac" }] }
  else if env_data.noise > cfg.noise_max then
    { s with interventions := s.interventions ++
        [{ time := now, co2 := env_data.co2,
           temperature := env_data.temperature,
           action := some "send_alert" }] }
  else
    { s with interventions := s.interventions ++
        [{ time := now, co2 := env_data.co2,
           temperature := env_data.temperature,
           action := none }] }

/-- The body of `SmartClassroomSimulation.update_environment`
(`simulation.py`), as run by `school_day_schedule`: one environment update
with the scheduled student count and the current actuator flags. -/
def SmartClassroomSimulation.update_environment
    (s : SmartClassroomSimulation) (cfg : Config) (student_count : ℤ)
    (e1 e2 e3 : ℚ) : SmartClassroomSimulation :=
  { s with classroom :=
      (s.classroom.update cfg 1 student_count s.fan_on s.ac_on e1 e2 e3).1 }

/-- One iteration of the `ml_monitoring` loop (`simulation.py`): it calls
`self.classroom.update(...)` (mutating the stored environment), then
`predict`; a `predict` failure propagates (crashing the run, as the Python
`ValueError` would); on a non-conducive verdict it runs
`trigger_interventions` on the snapshot. -/
def SmartClassroomSimulation.ml_monitoring_step
    (s : SmartClassroomSimulation) (cfg : Config) (now : ℕ)
    (e1 e2 e3 : ℚ) : Except String SmartClassroomSimulation :=
  let r := s.classroom.update cfg 1 s.classroom.student_count
    s.fan_on s.ac_on e1 e2 e3
  match LearningEnvironmentClassifier.predict s.model r.2 with
  | .error e => .error e
  | .ok p =>
      let s2 : SmartClassroomSimulation := { s with classroom := r.1 }
      .ok (if p.conducive then s2 else s2.trigger_interventions cfg now r.2)

/-- One iteration of the `data_logging` loop (`simulation.py`): it also
calls `self.classroom.update(...)` (mutating the stored environment) and
appends a log entry built from the returned snapshot. -/
def SmartClassroomSimulation.data_logging_step
    (s : SmartClassroomSimulation) (cfg : Config) (now : ℕ)
    (e1 e2 e3 : ℚ) : SmartClassroomSimulation :=
  let r := s.classroom.update cfg 1 s.classroom.student_count
    s.fan_on s.ac_on e1 e2 e3
  { s with
    classroom := r.1
    log := s.log ++
      [{ timestamp := now, student_count := r.1.student_count,
         co2 := r.2.co2, temperature := r.2.temperature,
         humidity := r.2.humidity, noise := r.2.noise, light := r.2.light,
         occupancy := r.2.occupancy, fan_on := s.fan_on, ac_on := s.ac_on }] }

/-- The operations the three simpy processes perform on the shared run
state: a schedule-driven environment update, a monitoring tick, a logging
tick. -/
inductive RunOp where
  | schedUpdate (student_count : ℤ)
  | monitor
  | logTick

/-- Dispatch one run operation at simulated time `now` with the given
random draws.  Only the monitoring tick can fail (a classifier error). -/
def stepSim (cfg : Config) (now : ℕ) (e1 e2 e3 : ℚ) (op : RunOp)
    (s : SmartClassroomSimulation) : Except String SmartClassroomSimulation :=
  match op with
  | .schedUpdate sc => .ok (s.update_environment cfg sc e1 e2 e3)
  | .monitor => s.ml_monitoring_step cfg now e1 e2 e3
  | .logTick => .ok (s.data_logging_step cfg now e1 e2 e3)

/-- A run trace: the scheduler executes a list of operations (each with its
simulated time and random draws) in order, stopping at the first error. -/
def runOps (cfg : Config) :
    List (ℕ × ℚ × ℚ × ℚ × RunOp) → SmartClassroomSimulation →
      Except String SmartClassroomSimulation
  | [], s => .ok s
  | (now, e1, e2, e3, op) :: rest, s =>
      (stepSim cfg now e1 e2 e3 op s).bind (runOps cfg rest)

/-- The action selected by the if/elif chain of `trigger_interventions`
(`simulation.py`), evaluated in the same fixed priority order on the same
snapshot fields; `none` when no rule matches. -/
def ruleAction (cfg : Config) (env_data : EnvSnapshot) : Option String :=
  if env_data.co2 > cfg.co2_max then some "activate_ventilation"
  else if env_data.temperature > cfg.temp_max then some "activate_ac"
  else if env_data.noise > cfg.noise_max then some "send_alert"
  else none

/-- The successful branch of `ml_monitoring_step`, i.e. one monitoring tick
when the loaded model is `some f` (so `predict` cannot fail). -/
def ml_monitoring_pure (cfg : Config) (f : TrainedModel) (now : ℕ)
    (e1 e2 e3 : ℚ) (s : SmartClassroomSimulation) : SmartClassroomSimulation :=
  let r := s.classroom.update cfg 1 s.classroom.student_count
    s.fan_on s.ac_on e1 e2 e3
  let s2 : SmartClassroomSimulation := { s with classroom := r.1 }
  if (f r.2).1 then s2 else s2.trigger_interventions cfg now r.2

/-- The `ml_monitoring` process truncated by the scheduler to `k` ticks:
one `ml_monitoring_step` every 5 simulated minutes starting at `now`,
consuming one triple of random draws per tick from the stream `rnd`. -/
def monitoringRun (cfg : Config) (rnd : ℕ → ℚ × ℚ × ℚ) :
    ℕ → ℕ → SmartClassroomSimulation → Except String SmartClassroomSimulation
  | 0, _, s => .ok s
  | k + 1, now, s =>
      (s.ml_monitoring_step cfg now (rnd 0).1 (rnd 0).2.1 (rnd 0).2.2).bind
        (monitoringRun cfg (fun i => rnd (i + 1)) k (now + 5))

/-- Number of monitoring ticks a run of `duration` minutes executes with
cadence `cadence`: the process fires at times `0, cadence, 2*cadence, …`
strictly before `duration` (simpy `run(until=duration)` does not execute
events scheduled at `duration` itself), i.e. `⌈duration / cadence⌉`. -/
def monitoringTicks (duration cadence : ℕ) : ℕ :=
  (duration + cadence - 1) / cadence

/-- Number of ticks among the first `k` monitoring ticks at which the
classifier `f` returns a non-conducive verdict, following the same state
evolution as `monitoringRun` with `model = some f`. -/
def ncCountRun (cfg : Config) (f : TrainedModel) (rnd : ℕ → ℚ × ℚ × ℚ) :
    ℕ → ℕ → SmartClassroomSimulation → ℕ
  | 0, _, _ => 0
  | k + 1, now, s =>
      (if (f (s.classroom.update cfg 1 s.classroom.student_count
          s.fan_on s.ac_on (rnd 0).1 (rnd 0).2.1 (rnd 0).2.2).2).1
        then 0 else 1) +
      ncCountRun cfg f (fun i => rnd (i + 1)) k (now + 5)
        (ml_monitoring_pure cfg f now (rnd 0).1 (rnd 0).2.1 (rnd 0).2.2 s)

/-- A trained model whose verdict is always conducive. -/
def alwaysConducive : TrainedModel := fun _ => (true, 1)

/-- A trained model whose verdict is always non-conducive. -/
def alwaysNonConducive : TrainedModel := fun _ => (false, 1)

/-- Snapshot for the priority-order scenario: `co2 = 1050` with
temperature and noise also above their thresholds. -/
def snapHighCo2 : EnvSnapshot :=
  { co2 := 1050, temperature := 27, humidity := 50, noise := 70,
    light := 500, occupancy := 1 }

/-- Snapshot matching no rule: all three monitored values at or below
their thresholds. -/
def snapNoMatch : EnvSnapshot :=
  { co2 := 500, temperature := 20, humidity := 50, noise := 40,
    light := 500, occupancy := 0 }

/-- A mid-run simulation state (occupied classroom, conducive classifier),
used to evaluate single ticks concretely. -/
def demoState : SmartClassroomSimulation :=
  { classroom :=
      { co2 := 500, temperature := 22, humidity := 50, noise := 40,
        light := 500, occupancy := 1, student_count := 30 }
    model := some alwaysConducive
    interventions := []
    log := []
    fan_on := false
    ac_on := false
    lights_on := true }

/-- A simulation state in which both actuators are already on. -/
def bothActuatorsOn : SmartClassroomSimulation :=
  { SmartClassroomSimulation.init none with
    fan_on := true
    ac_on := true }

/-- C3: for every update call with non-negative `dt_minutes` and
`student_count` and any actuator flags, the returned snapshot satisfies
`co2 ≥ 400` and `noise ≥ 30` (the clamp floors hold after every update). -/
theorem update_snapshot_clamped (s : ClassroomEnvironment) (cfg : Config)
    (ts : ℚ) (sc : ℤ) (fan_on ac_on : Bool) (e1 e2 e3 : ℚ)
    (hts : 0 ≤ ts) (hsc : 0 ≤ sc) :
    400 ≤ (s.update cfg ts sc fan_on ac_on e1 e2 e3).2.co2 ∧
      30 ≤ (s.update cfg ts sc fan_on ac_on e1 e2 e3).2.noise := by
  constructor
  · exact le_max_left _ _
  · exact le_max_left _ _

/-- Witness for C3 at `ts = 1`, `sc = 0` on the initial state. -/
theorem update_snapshot_clamped_witness :
    (0 : ℚ) ≤ 1 ∧ (0 : ℤ) ≤ 0 ∧
      (400 ≤ (ClassroomEnvironment.init.update SIMULATION_CONFIG 1 0 false false 0 0 0).2.co2 ∧
        30 ≤ (ClassroomEnvironment.init.update SIMULATION_CONFIG 1 0 false false 0 0 0).2.noise) :=
  ⟨by norm_num, by decide,
    update_snapshot_clamped ClassroomEnvironment.init SIMULATION_CONFIG 1 0 false false 0 0 0
      (by norm_num) (by decide)⟩

/-! ## Helper lemmas about `trigger_interventions` -/

theorem trigger_interventions_fan_on (s : SmartClassroomSimulation)
    (cfg : Config) (now : ℕ) (d : EnvSnapshot) :
    (s.trigger_interventions cfg now d).fan_on =
      (if d.co2 > cfg.co2_max then true else s.fan_on) := by
  simp only [SmartClassroomSimulation.trigger_interventions]
  split_ifs <;> rfl

theorem trigger_interventions_ac_on (s : SmartClassroomSimulation)
    (cfg : Config) (now : ℕ) (d : EnvSnapshot) :
    (s.trigger_interventions cfg now d).ac_on =
      (if d.co2 > cfg.co2_max then s.ac_on
        else if d.temperature > cfg.temp_max then true else s.ac_on) := by
  simp only [SmartClassroomSimulation.trigger_interventions]
  split_ifs <;> rfl

theorem trigger_interventions_history (s : SmartClassroomSimulation)
    (cfg : Config) (now : ℕ) (d : EnvSnapshot) :
    (s.trigger_interventions cfg now d).interventions =
      s.interventions ++
        [{ time := now, co2 := d.co2, temperature := d.temperature,
           action := ruleAction cfg d }] := by
  simp only [SmartClassroomSimulation.trigger_interventions, ruleAction]
  split_ifs <;> rfl

theorem trigger_interventions_model (s : SmartClassroomSimulation)
    (cfg : Config) (now : ℕ) (d : EnvSnapshot) :
    (s.trigger_interventions cfg now d).model = s.model := by
  simp only [SmartClassroomSimulation.trigger_interventions]
  split_ifs <;> rfl

theorem trigger_interventions_classroom (s : SmartClassroomSimulation)
    (cfg : Config) (now : ℕ) (d : EnvSnapshot) :
    (s.trigger_interventions cfg now d).classroom = s.classroom := by
  simp only [SmartClassroomSimulation.trigger_interventions]
  split_ifs <;> rfl

/-- C1: on a non-conducive verdict the controller fires only the first
matching rule in the fixed priority order: `co2 > co2_max` sets `fan_on`
and records `activate_ventilation` regardless of temperature and noise
(AC flag untouched); otherwise `temperature > temp_max` sets `ac_on` and
records `activate_ac` with `fan_on` unchanged; otherwise
`noise > noise_max` records `send_alert` with no actuator change. -/
theorem trigger_interventions_priority_order (cfg : Config) (now : ℕ)
    (d : EnvSnapshot) (s : SmartClassroomSimulation) :
    (d.co2 > cfg.co2_max →
      (s.trigger_interventions cfg now d).fan_on = true ∧
      (s.trigger_interventions cfg now d).ac_on = s.ac_on ∧
      (s.trigger_interventions cfg now d).interventions =
        s.interventions ++
          [{ time := now, co2 := d.co2, temperature := d.temperature,
             action := some "activate_ventilation" }]) ∧
    (¬ d.co2 > cfg.co2_max → d.temperature > cfg.temp_max →
      (s.trigger_interventions cfg now d).ac_on = true ∧
      (s.trigger_interventions cfg now d).fan_on = s.fan_on ∧
      (s.trigger_interventions cfg now d).interventions =
        s.interventions ++
          [{ time := now, co2 := d.co2, temperature := d.temperature,
             action := some "activate_ac" }]) ∧
    (¬ d.co2 > cfg.co2_max → ¬ d.temperature > cfg.temp_max →
        d.noise > cfg.noise_max →
      (s.trigger_interventions cfg now d).fan_on = s.fan_on ∧
      (s.trigger_interventions cfg now d).ac_on = s.ac_on ∧
      (s.trigger_interventions cfg now d).interventions =
        s.interventions ++
          [{ time := now, co2 := d.co2, temperature := d.temperature,
             action := some "send_alert" }]) := by
  refine ⟨fun h1 => ?_, fun h1 h2 => ?_, fun h1 h2 h3 => ?_⟩
  · simp [SmartClassroomSimulation.trigger_interventions, h1]
  · simp [SmartClassroomSimulation.trigger_interventions, h1, h2]
  · simp [SmartClassroomSimulation.trigger_interventions, h1, h2, h3]

/-- Witness for C1: the spec scenario `co2 = 1050 > co2_max = 1000` with
temperature and noise also above threshold — ventilation wins by priority,
the AC flag stays off. -/
theorem trigger_interventions_priority_order_witness :
    snapHighCo2.co2 > SIMULATION_CONFIG.co2_max ∧
    (((SmartClassroomSimulation.init none).trigger_interventions
        SIMULATION_CONFIG 0 snapHighCo2).fan_on = true ∧
      ((SmartClassroomSimulation.init none).trigger_interventions
        SIMULATION_CONFIG 0 snapHighCo2).ac_on =
          (SmartClassroomSimulation.init none).ac_on ∧
      ((SmartClassroomSimulation.init none).trigger_interventions
        SIMULATION_CONFIG 0 snapHighCo2).interventions =
        (SmartClassroomSimulation.init none).interventions ++
          [{ time := 0, co2 := snapHighCo2.co2,
             temperature := snapHighCo2.temperature,
             action := some "activate_ventilation" }]) :=
  ⟨by decide,
    (trigger_interventions_priority_order SIMULATION_CONFIG 0 snapHighCo2
      (SmartClassroomSimulation.init none)).1 (by decide)⟩

/-- C6: every controller invocation appends exactly one record (timestamp,
co2, temperature, action) to the intervention history — also in the
no-match case, where the record carries the empty action `none`. -/
theorem trigger_interventions_always_records (cfg : Config) (now : ℕ)
    (d : EnvSnapshot) (s : SmartClassroomSimulation) :
    (s.trigger_interventions cfg now d).interventions =
      s.interventions ++
        [{ time := now, co2 := d.co2, temperature := d.temperature,
           action := ruleAction cfg d }] ∧
    (s.trigger_interventions cfg now d).interventions.length =
      s.interventions.length + 1 ∧
    (¬ d.co2 > cfg.co2_max → ¬ d.temperature > cfg.temp_max →
        ¬ d.noise > cfg.noise_max → ruleAction cfg d = none) := by
  refine ⟨trigger_interventions_history s cfg now d, ?_, fun h1 h2 h3 => ?_⟩
  · rw [trigger_interventions_history]
    simp
  · simp [ruleAction, h1, h2, h3]

/-- Witness for C6: the no-match snapshot (all monitored values within
thresholds) still yields exactly one appended record, with action `none`. -/
theorem trigger_interventions_always_records_witness :
    (¬ snapNoMatch.co2 > SIMULATION_CONFIG.co2_max) ∧
    (¬ snapNoMatch.temperature > SIMULATION_CONFIG.temp_max) ∧
    (¬ snapNoMatch.noise > SIMULATION_CONFIG.noise_max) ∧
    ((SmartClassroomSimulation.init none).trigger_interventions
        SIMULATION_CONFIG 0 snapNoMatch).interventions =
      [{ time := 0, co2 := snapNoMatch.co2,
         temperature := snapNoMatch.temperature, action := none }] := by
  have h := trigger_interventions_always_records SIMULATION_CONFIG 0
    snapNoMatch (SmartClassroomSimulation.init none)
  refine ⟨by decide, by decide, by decide, ?_⟩
  have hact := h.2.2 (by decide) (by decide) (by decide)
  simpa [hact] using h.1

/-- C2 counterexample: construction with a failed model load succeeds (the
`except` branch only prints), producing an ordinary state with `model =
none` on which the first scheduled run activity executes — so the run
does begin, contrary to the claim that it is fatal at run start. -/
theorem run_begins_despite_missing_model :
    (SmartClassroomSimulation.init none).model = none ∧
    (stepSim SIMULATION_CONFIG 0 0 0 0 (RunOp.schedUpdate 30)
        (SmartClassroomSimulation.init none)).toOption.isSome = true :=
  ⟨rfl, rfl⟩

/-- C2 (amended): construction never fails — `model` simply holds the load
result — and an untrained classifier is fatal only at the first monitoring
tick, where `predict` raises `ValueError("Model not trained. ...")`; the
verdict is never defaulted to conducive. -/
theorem missing_model_fatal_at_first_monitoring_tick (cfg : Config)
    (now : ℕ) (e1 e2 e3 : ℚ) (load : Option TrainedModel)
    (s : SmartClassroomSimulation) :
    (SmartClassroomSimulation.init load).model = load ∧
    (s.model = none →
      s.ml_monitoring_step cfg now e1 e2 e3 =
        .error "Model not trained. Call train_from_csv first.") := by
  refine ⟨rfl, fun hm => ?_⟩
  simp [SmartClassroomSimulation.ml_monitoring_step,
    LearningEnvironmentClassifier.predict, hm]

/-- Witness for the amended C2 at the state built with a failed load. -/
theorem missing_model_fatal_witness :
    (SmartClassroomSimulation.init none).model = none ∧
    (SmartClassroomSimulation.init none).ml_monitoring_step
        SIMULATION_CONFIG 0 0 0 0 =
      .error "Model not trained. Call train_from_csv first." := by
  have h := missing_model_fatal_at_first_monitoring_tick SIMULATION_CONFIG
    0 0 0 0 none (SmartClassroomSimulation.init none)
  exact ⟨h.1, h.2 rfl⟩

/-- C4 (code-bug evidence): both the monitoring tick and the logging tick
call `classroom.update`, mutating the stored environment state — here the
stored CO₂ moves from 500 to 7499297/15000 on a single logging (resp.
monitoring) tick with zero random draws, so the state is mutated more than
once per tick and not only by the environment-update activity. -/
theorem monitoring_and_logging_mutate_state :
    (demoState.data_logging_step SIMULATION_CONFIG 0 0 0 0).classroom.co2 ≠
      demoState.classroom.co2 ∧
    ((demoState.ml_monitoring_step SIMULATION_CONFIG 0 0 0 0).toOption.map
        (fun t => t.classroom.co2)) = some (7499297/15000 : ℚ) ∧
    (7499297/15000 : ℚ) ≠ demoState.classroom.co2 := by
  have h1 : (demoState.data_logging_step SIMULATION_CONFIG 0 0 0 0).classroom.co2
      = 7499297/15000 := by with_unfolding_all rfl
  have h2 : demoState.classroom.co2 = 500 := rfl
  refine ⟨?_, by with_unfolding_all rfl, ?_⟩
  · rw [h1, h2]
    norm_num
  · rw [h2]
    norm_num

/-- C8 counterexample: the update boundary performs no validation — a
negative `student_count` is accepted (no error), and so are negative
`room_capacity` and `room_volume`. -/
theorem negative_student_count_accepted :
    ((-5 : ℤ) < 0) ∧
    (ClassroomEnvironment.init.updateChecked SIMULATION_CONFIG 1 (-5)
        false false 0 0 0).toOption.isSome = true ∧
    (ClassroomEnvironment.init.updateChecked
        { SIMULATION_CONFIG with room_capacity := -30, room_volume := -200 }
        1 5 false false 0 0 0).toOption.isSome = true :=
  ⟨by decide, by decide, by decide⟩

/-- C8 (amended): `update` rejects nothing — it succeeds for every input,
of any sign, exactly when `room_capacity ≠ 0` and `room_volume ≠ 0`; the
only failure mode is the `ZeroDivisionError` crash at a zero divisor,
which is not a validation error. -/
theorem update_checked_no_validation (s : ClassroomEnvironment)
    (cfg : Config) (ts : ℚ) (sc : ℤ) (fan_on ac_on : Bool) (e1 e2 e3 : ℚ) :
    (s.updateChecked cfg ts sc fan_on ac_on e1 e2 e3).toOption.isSome = true ↔
      (cfg.room_capacity ≠ 0 ∧ cfg.room_volume ≠ 0) := by
  simp only [ClassroomEnvironment.updateChecked]
  split_ifs with h1 h2
  · simp [Except.toOption, h1]
  · simp [Except.toOption, h2]
  · simp [Except.toOption, h1, h2]

/-- C9: with the same post-production CO₂ value strictly above 400 ppm and
a positive time step, the decay term with the fan on (`air_change_rate =
0.5`) strictly exceeds the decay term with the fan off (`0.1`). -/
theorem fan_decay_exceeds_no_fan_decay (co2 ts : ℚ)
    (h : 400 < co2) (ht : 0 < ts) :
    co2DecayTerm false co2 ts < co2DecayTerm true co2 ts := by
  have hd : 0 < (co2 - 400) * ts := mul_pos (by linarith) ht
  show (1/10 : ℚ) * (co2 - 400) * ts / 60 < (1/2 : ℚ) * (co2 - 400) * ts / 60
  nlinarith [hd]

/-- Witness for C9 at `co2 = 500`, `ts = 1`. -/
theorem fan_decay_exceeds_no_fan_decay_witness :
    (400 : ℚ) < 500 ∧ (0 : ℚ) < 1 ∧
      co2DecayTerm false 500 1 < co2DecayTerm true 500 1 :=
  ⟨by norm_num, by norm_num,
    fan_decay_exceeds_no_fan_decay 500 1 (by norm_num) (by norm_num)⟩

/-- C10: the 400 ppm / 30 dB floors are applied only to the returned
snapshot; the stored state keeps the unclamped CO₂ (production minus decay
plus the Gaussian draw, where the decay of the *next* update is again
computed from this stored unclamped value, since the formula reads `s.co2`)
and the unclamped recomputed noise.  Concretely, a `-10` CO₂ draw from the
fresh-air state stores 390 ppm while the snapshot reads 400. -/
theorem clamp_only_in_snapshot (s : ClassroomEnvironment) (cfg : Config)
    (ts : ℚ) (sc : ℤ) (fan_on ac_on : Bool) (e1 e2 e3 : ℚ) :
    (s.update cfg ts sc fan_on ac_on e1 e2 e3).2.co2 =
      max 400 (s.update cfg ts sc fan_on ac_on e1 e2 e3).1.co2 ∧
    (s.update cfg ts sc fan_on ac_on e1 e2 e3).2.noise =
      max 30 (s.update cfg ts sc fan_on ac_on e1 e2 e3).1.noise ∧
    (s.update cfg ts sc fan_on ac_on e1 e2 e3).1.co2 =
      s.co2 + (sc : ℚ) * cfg.co2_per_person * ts -
        co2DecayTerm fan_on (s.co2 + (sc : ℚ) * cfg.co2_per_person * ts) ts
        + e1 ∧
    (s.update cfg ts sc fan_on ac_on e1 e2 e3).1.noise =
      40 + (sc : ℚ) * (4/5) + e3 ∧
    (ClassroomEnvironment.init.update SIMULATION_CONFIG 1 0 false false
      (-10) 0 0).1.co2 = 390 ∧
    (ClassroomEnvironment.init.update SIMULATION_CONFIG 1 0 false false
      (-10) 0 0).2.co2 = 400 :=
  ⟨rfl, rfl, rfl, rfl, by with_unfolding_all rfl, by with_unfolding_all rfl⟩

/-! ## Helper lemmas about run steps -/

theorem stepSim_actuator_mono (cfg : Config) (now : ℕ) (e1 e2 e3 : ℚ)
    (op : RunOp) (s s' : SmartClassroomSimulation)
    (h : stepSim cfg now e1 e2 e3 op s = .ok s') :
    (s.fan_on = true → s'.fan_on = true) ∧
    (s.ac_on = true → s'.ac_on = true) := by
  cases op with
  | schedUpdate sc =>
      simp only [stepSim, Except.ok.injEq] at h
      subst h
      exact ⟨fun hf => hf, fun ha => ha⟩
  | logTick =>
      simp only [stepSim, Except.ok.injEq] at h
      subst h
      exact ⟨fun hf => hf, fun ha => ha⟩
  | monitor =>
      simp only [stepSim, SmartClassroomSimulation.ml_monitoring_step] at h
      cases hm : s.model with
      | none =>
          rw [hm] at h
          simp [LearningEnvironmentClassifier.predict] at h
      | some f =>
          rw [hm] at h
          simp only [LearningEnvironmentClassifier.predict,
            Except.ok.injEq] at h
          subst h
          refine ⟨fun hf => ?_, fun ha => ?_⟩
          · split
            · exact hf
            · rw [trigger_interventions_fan_on]
              split
              · rfl
              · exact hf
          · split
            · exact ha
            · rw [trigger_interventions_ac_on]
              split
              · exact ha
              · split
                · rfl
                · exact ha

theorem ml_monitoring_step_some (cfg : Config) (f : TrainedModel) (now : ℕ)
    (e1 e2 e3 : ℚ) (s : SmartClassroomSimulation) (hm : s.model = some f) :
    s.ml_monitoring_step cfg now e1 e2 e3 =
      .ok (ml_monitoring_pure cfg f now e1 e2 e3 s) := by
  simp only [SmartClassroomSimulation.ml_monitoring_step,
    ml_monitoring_pure, hm, LearningEnvironmentClassifier.predict]

theorem ml_monitoring_pure_model (cfg : Config) (f : TrainedModel)
    (now : ℕ) (e1 e2 e3 : ℚ) (s : SmartClassroomSimulation) :
    (ml_monitoring_pure cfg f now e1 e2 e3 s).model = s.model := by
  simp only [ml_monitoring_pure]
  split
  · rfl
  · rw [trigger_interventions_model]

theorem ml_monitoring_pure_history_length (cfg : Config) (f : TrainedModel)
    (now : ℕ) (e1 e2 e3 : ℚ) (s : SmartClassroomSimulation) :
    (ml_monitoring_pure cfg f now e1 e2 e3 s).interventions.length =
      s.interventions.length +
        (if (f (s.classroom.update cfg 1 s.classroom.student_count
            s.fan_on s.ac_on e1 e2 e3).2).1 then 0 else 1) := by
  simp only [ml_monitoring_pure]
  split
  · simp
  · rw [trigger_interventions_history]
    simp

theorem monitoringRun_conducive_lengths (cfg : Config) (f : TrainedModel)
    (hf : ∀ d, (f d).1 = true) :
    ∀ (k now : ℕ) (rnd : ℕ → ℚ × ℚ × ℚ) (s : SmartClassroomSimulation),
      s.model = some f →
        (monitoringRun cfg rnd k now s).toOption.map
            (fun t => t.interventions.length) =
          some s.interventions.length := by
  intro k
  induction k with
  | zero =>
      intro now rnd s hm
      rfl
  | succ k ih =>
      intro now rnd s hm
      have hstep := ml_monitoring_step_some cfg f now
        (rnd 0).1 (rnd 0).2.1 (rnd 0).2.2 s hm
      simp only [monitoringRun, hstep, Except.bind]
      have hm2 : (ml_monitoring_pure cfg f now
          (rnd 0).1 (rnd 0).2.1 (rnd 0).2.2 s).model = some f := by
        rw [ml_monitoring_pure_model]
        exact hm
      rw [ih (now + 5) (fun i => rnd (i + 1)) _ hm2]
      simp [ml_monitoring_pure, hf]

/-- C5: along any run trace (any interleaving of schedule updates,
monitoring ticks and logging ticks that completes without a classifier
error), once `fan_on` or `ac_on` is true it stays true — no operation of
the run ever clears an actuator flag. -/
theorem actuator_flags_monotonic (cfg : Config)
    (ops : List (ℕ × ℚ × ℚ × ℚ × RunOp)) (s s' : SmartClassroomSimulation)
    (h : runOps cfg ops s = .ok s') :
    (s.fan_on = true → s'.fan_on = true) ∧
    (s.ac_on = true → s'.ac_on = true) := by
  induction ops generalizing s with
  | nil =>
      simp only [runOps, Except.ok.injEq] at h
      subst h
      exact ⟨fun hf => hf, fun ha => ha⟩
  | cons p rest ih =>
      obtain ⟨now, e1, e2, e3, op⟩ := p
      simp only [runOps] at h
      cases hstep : stepSim cfg now e1 e2 e3 op s with
      | error e =>
          rw [hstep] at h
          simp [Except.bind] at h
      | ok s1 =>
          rw [hstep] at h
          simp only [Except.bind] at h
          have h1 := stepSim_actuator_mono cfg now e1 e2 e3 op s s1 hstep
          have h2 := ih s1 h
          exact ⟨fun hf => h2.1 (h1.1 hf), fun ha => h2.2 (h1.2 ha)⟩

/-- Witness for C5: a logging tick on a state with both actuators on
leaves both on. -/
theorem actuator_flags_monotonic_witness :
    bothActuatorsOn.fan_on = true ∧
    (bothActuatorsOn.data_logging_step SIMULATION_CONFIG 0 0 0 0).fan_on
      = true ∧
    (bothActuatorsOn.data_logging_step SIMULATION_CONFIG 0 0 0 0).ac_on
      = true := by
  have h := actuator_flags_monotonic SIMULATION_CONFIG
    [(0, 0, 0, 0, RunOp.logTick)] bothActuatorsOn
    (bothActuatorsOn.data_logging_step SIMULATION_CONFIG 0 0 0 0) rfl
  exact ⟨rfl, h.1 rfl, h.2 rfl⟩

/-- C7 (amended): after `k` monitoring ticks the intervention history has
grown by exactly the number of ticks at which the classifier returned a
non-conducive verdict — which is at most `k`, with equality when every
verdict is non-conducive.  (It is *not* `k` independently of the verdicts:
conducive ticks record nothing.) -/
theorem intervention_history_counts_nonconducive_ticks (cfg : Config)
    (f : TrainedModel) :
    ∀ (k now : ℕ) (rnd : ℕ → ℚ × ℚ × ℚ) (s : SmartClassroomSimulation),
      s.model = some f →
        (monitoringRun cfg rnd k now s).toOption.map
            (fun t => t.interventions.length) =
          some (s.interventions.length + ncCountRun cfg f rnd k now s) ∧
        ncCountRun cfg f rnd k now s ≤ k ∧
        ((∀ d, (f d).1 = false) → ncCountRun cfg f rnd k now s = k) := by
  intro k
  induction k with
  | zero =>
      intro now rnd s hm
      exact ⟨rfl, Nat.le_refl 0, fun _ => rfl⟩
  | succ k ih =>
      intro now rnd s hm
      have hstep := ml_monitoring_step_some cfg f now
        (rnd 0).1 (rnd 0).2.1 (rnd 0).2.2 s hm
      have hm2 : (ml_monitoring_pure cfg f now
          (rnd 0).1 (rnd 0).2.1 (rnd 0).2.2 s).model = some f := by
        rw [ml_monitoring_pure_model]
        exact hm
      have H := ih (now + 5) (fun i => rnd (i + 1)) _ hm2
      simp only [monitoringRun, ncCountRun, hstep, Except.bind]
      refine ⟨?_, ?_, fun hf => ?_⟩
      · rw [H.1, ml_monitoring_pure_history_length]
        congr 1
        omega
      · have hk := H.2.1
        split_ifs <;> omega
      · have hk := H.2.2 hf
        rw [hf, if_neg Bool.false_ne_true]
        omega

/-- C7 counterexample: the monitoring ticks of a full run
(480 min / 5 min cadence = 96 ticks) with an always-conducive classifier
leaves the intervention history empty — length 0, not 96: the history
length is *not* independent of the classifier verdicts, because
`trigger_interventions` is only called on a non-conducive verdict. -/
theorem intervention_history_shorter_when_conducive :
    ((monitoringRun SIMULATION_CONFIG (fun _ => (0, 0, 0))
        (monitoringTicks SIMULATION_CONFIG.simulation_duration 5) 0
        (SmartClassroomSimulation.init (some alwaysConducive))).toOption.map
      (fun t => t.interventions.length)) = some 0 ∧
    monitoringTicks SIMULATION_CONFIG.simulation_duration 5 = 96 ∧
    (0 : ℕ) ≠ 96 := by
  refine ⟨?_, rfl, by decide⟩
  have h := monitoringRun_conducive_lengths SIMULATION_CONFIG
    alwaysConducive (fun d => rfl)
    (monitoringTicks SIMULATION_CONFIG.simulation_duration 5) 0
    (fun _ => (0, 0, 0))
    (SmartClassroomSimulation.init (some alwaysConducive)) rfl
  exact h

/-- Witness for the amended C7: one monitoring tick with an
always-non-conducive classifier grows the history by the non-conducive
tick count. -/
theorem intervention_history_counts_witness :
    (SmartClassroomSimulation.init (some alwaysNonConducive)).model =
      some alwaysNonConducive ∧
    ((monitoringRun SIMULATION_CONFIG (fun _ => (0, 0, 0)) 1 0
        (SmartClassroomSimulation.init (some alwaysNonConducive))).toOption.map
          (fun t => t.interventions.length) =
      some ((SmartClassroomSimulation.init
            (some alwaysNonConducive)).interventions.length +
        ncCountRun SIMULATION_CONFIG alwaysNonConducive (fun _ => (0, 0, 0))
          1 0 (SmartClassroomSimulation.init (some alwaysNonConducive))) ∧
      ncCountRun SIMULATION_CONFIG alwaysNonConducive (fun _ => (0, 0, 0))
          1 0 (SmartClassroomSimulation.init (some alwaysNonConducive)) ≤ 1 ∧
      ((∀ d, (alwaysNonConducive d).1 = false) →
        ncCountRun SIMULATION_CONFIG alwaysNonConducive (fun _ => (0, 0, 0))
          1 0 (SmartClassroomSimulation.init (some alwaysNonConducive))
          = 1)) :=
  ⟨rfl, intervention_history_counts_nonconducive_ticks SIMULATION_CONFIG
    alwaysNonConducive 1 0 (fun _ => (0, 0, 0))
    (SmartClassroomSimulation.init (some alwaysNonConducive)) rfl⟩
